import Mathlib

/-! Chat client (`frontend/src/App.js`): transcript and request protocol.

A shallow embedding of the `App` component of `src/frontend/src/App.js`:
the React state (`messages`, `input`, `loading`), the handler `sendMessage`
(lines 45-88), the handlers `handleKeyPress` and `onChange`, and the
ECMAScript library operations the handler calls (`String.prototype.trim`,
`JSON.stringify`, `ToBoolean`, `typeof`, `ToString`).

Conventions of the embedding.

* JavaScript strings are Lean `String`s (sequences of Unicode scalar values;
  lone surrogates are not represented).
* A value produced by `response.json()` is a `JSON ν`, where `ν` is the type of
  numbers.  The behaviour of numbers (`Number::toString`, finiteness, being
  `0`/`NaN`) is supplied by the `Platform` record, as are the two texts that
  ECMAScript leaves to the engine (the messages of its `TypeError`s).
* An object is the list of its own enumerable properties in enumeration order,
  with pairwise distinct keys.
* `undefined` is `none` in `Option (JSON ν)`.
* A handler reads `input` and `loading` as constants of the render that
  created it (lines 21-22), while the updates it makes reach the current
  state.  `World` keeps the constants of the last committed render next to the
  current state, and the event `render` commits a new render.
-/

namespace ChatApp

/-! ## JavaScript values -/

/-- A value as produced by `JSON.parse` / `response.json()`. -/
inductive JSON (ν : Type) where
  | null : JSON ν
  | bool (b : Bool) : JSON ν
  | num (n : ν) : JSON ν
  | str (s : String) : JSON ν
  | arr (elems : List (JSON ν)) : JSON ν
  | obj (props : List (String × JSON ν)) : JSON ν

/-- What the host supplies: the build-time configuration and the
engine-defined parts of ECMAScript. -/
structure Platform (ν : Type) where
  /-- The value of `process.env.REACT_APP_API_URL` (line 27); `none` is `undefined`. -/
  API_URL : Option String
  /-- The operation `Number::toString` (radix 10). -/
  numToString : ν → String
  /-- The number is neither `NaN` nor an infinity. -/
  numIsFinite : ν → Bool
  /-- The number is `+0`, `-0` or `NaN` (the numbers `ToBoolean` sends to `false`). -/
  numIsFalsy : ν → Bool
  /-- The message of the `TypeError` thrown when a property of `null` is read. -/
  nullReadMessage : String
  /-- The message of the `TypeError` thrown when an object has no primitive value. -/
  toPrimitiveMessage : String

variable {ν : Type}

/-- The operation `ToBoolean` on a parsed value. -/
def truthy (P : Platform ν) : JSON ν → Bool
  | .null => false
  | .bool b => b
  | .num n => !P.numIsFalsy n
  | .str s => s != ""
  | .arr _ => true
  | .obj _ => true

/-- The test `typeof v === 'object'`; it holds of `null`, of arrays and of objects. -/
def typeofIsObject : JSON ν → Bool
  | .null => true
  | .arr _ => true
  | .obj _ => true
  | _ => false

/-- The own property `key` among `props`. -/
def lookupProp (key : String) : List (String × JSON ν) → Option (JSON ν)
  | [] => none
  | (k, v) :: rest => if k = key then some v else lookupProp key rest

/-- The property read `v.key` for a `key` that no built-in prototype and no
exotic object defines (`response` and `detail` are such keys): an object
answers with its own property, every other value but `null` with `undefined`.
Reading a property of `null` throws and is not covered here; the callers
handle `null` before they read. -/
def getProp (v : JSON ν) (key : String) : Option (JSON ν) :=
  match v with
  | .obj props => lookupProp key props
  | _ => none

/-! ## `String.prototype.trim` -/

/-- The code points `WhiteSpace` and `LineTerminator` of ECMAScript, which
`trim` removes. -/
def isTrimChar (c : Char) : Bool :=
  let n := c.toNat
  n = 0x09 || n = 0x0A || n = 0x0B || n = 0x0C || n = 0x0D || n = 0x20 ||
  n = 0xA0 || n = 0x1680 || (0x2000 ≤ n && n ≤ 0x200A) ||
  n = 0x2028 || n = 0x2029 || n = 0x202F || n = 0x205F || n = 0x3000 || n = 0xFEFF

/-- Removes the leading trim characters. -/
def trimStart : List Char → List Char
  | [] => []
  | c :: cs => if isTrimChar c then trimStart cs else c :: cs

/-- The method `String.prototype.trim`. -/
def jsTrim (s : String) : String :=
  String.mk (trimStart (trimStart s.data).reverse).reverse

/-! ## `JSON.stringify` -/

/-- The lower-case hexadecimal digit of `n < 16`. -/
def hexDigit (n : Nat) : Char :=
  if n < 10 then Char.ofNat (48 + n) else Char.ofNat (87 + n)

/-- The operation `UnicodeEscape`: a backslash, `u` and four hexadecimal digits. -/
def unicodeEscape (n : Nat) : List Char :=
  [Char.ofNat 92, 'u', hexDigit (n / 4096 % 16), hexDigit (n / 256 % 16),
    hexDigit (n / 16 % 16), hexDigit (n % 16)]

/-- The text `QuoteJSONString` emits for one code point. -/
def quoteChar (c : Char) : List Char :=
  let n := c.toNat
  if n = 0x08 then [Char.ofNat 92, 'b']
  else if n = 0x09 then [Char.ofNat 92, 't']
  else if n = 0x0A then [Char.ofNat 92, 'n']
  else if n = 0x0C then [Char.ofNat 92, 'f']
  else if n = 0x0D then [Char.ofNat 92, 'r']
  else if n = 0x22 then [Char.ofNat 92, Char.ofNat 34]
  else if n = 0x5C then [Char.ofNat 92, Char.ofNat 92]
  else if n < 0x20 then unicodeEscape n
  else [c]

/-- The quoted code points of a list of code points. -/
def quoteChars : List Char → List Char
  | [] => []
  | c :: cs => quoteChar c ++ quoteChars cs

/-- The operation `QuoteJSONString`. -/
def QuoteJSONString (s : String) : String :=
  String.mk (Char.ofNat 34 :: (quoteChars s.data ++ [Char.ofNat 34]))

/-- The `gap` that `JSON.stringify` derives from a numeric `space` argument:
`min(10, space)` spaces. -/
def gapOfSpace (space : Nat) : String :=
  String.mk (List.replicate (min 10 space) (Char.ofNat 32))

/-- Joins the serialized members with `sep`. -/
def joinWith (sep : String) : List String → String
  | [] => ""
  | [x] => x
  | x :: y :: rest => x ++ sep ++ joinWith sep (y :: rest)

/-- The last steps of `SerializeJSONObject` and `SerializeJSONArray`: the
brackets `lb` and `rb` around the members `parts`, on one line when `gap` is
empty and one member a line at indentation `indent` otherwise; `stepback` is
the indentation of the enclosing value. -/
def bracketed (lb rb gap stepback indent : String) (parts : List String) : String :=
  if parts.isEmpty then lb ++ rb
  else if gap = "" then lb ++ joinWith "," parts ++ rb
  else lb ++ "\n" ++ indent ++ joinWith (",\n" ++ indent) parts ++ "\n" ++ stepback ++ rb

mutual
/-- The operation `SerializeJSONProperty` on a parsed value (no `toJSON`
method, no replacer), at indentation `indent`. -/
def serializeJSONProperty (P : Platform ν) (gap indent : String) : JSON ν → String
  | .null => "null"
  | .bool b => if b then "true" else "false"
  | .num n => if P.numIsFinite n then P.numToString n else "null"
  | .str s => QuoteJSONString s
  | .arr elems =>
      bracketed "[" "]" gap indent (indent ++ gap)
        (serializeElements P gap (indent ++ gap) elems)
  | .obj props =>
      bracketed "\x7b" "\x7d" gap indent (indent ++ gap)
        (serializeMembers P gap (indent ++ gap) props)
/-- The serialized elements of an array. -/
def serializeElements (P : Platform ν) (gap indent : String) : List (JSON ν) → List String
  | [] => []
  | v :: vs => serializeJSONProperty P gap indent v :: serializeElements P gap indent vs
/-- The serialized members of an object: quoted key, colon, a space when
`gap` is not empty, and the value. -/
def serializeMembers (P : Platform ν) (gap indent : String) :
    List (String × JSON ν) → List String
  | [] => []
  | (k, v) :: rest =>
      (QuoteJSONString k ++ ":" ++ (if gap = "" then "" else " ") ++
          serializeJSONProperty P gap indent v) ::
        serializeMembers P gap indent rest
end

/-- The call `JSON.stringify(v, null, space)` on a parsed value, for a numeric
`space`. -/
def stringifyIndented (P : Platform ν) (v : JSON ν) (space : Nat) : String :=
  serializeJSONProperty P (gapOfSpace space) "" v

/-- The call `JSON.stringify(v)` on a parsed value. -/
def stringify (P : Platform ν) (v : JSON ν) : String :=
  serializeJSONProperty P "" "" v

/-! ## `ToString` -/

mutual
/-- The operation `ToString` on a parsed value; `Except.error m` is a thrown
`TypeError` with message `m`.  An array is joined with commas
(`Array.prototype.join`), a plain object is `[object Object]`, and an object
whose own property `toString` hides `Object.prototype.toString` has no
primitive value. -/
def jsToString (P : Platform ν) : JSON ν → Except String String
  | .null => .ok "null"
  | .bool b => .ok (if b then "true" else "false")
  | .num n => .ok (P.numToString n)
  | .str s => .ok s
  | .arr elems => joinElements P elems
  | .obj props =>
      match lookupProp "toString" props with
      | some _ => .error P.toPrimitiveMessage
      | none => .ok "[object Object]"
/-- The method `Array.prototype.join` with separator `,`: `null` elements
give the empty string. -/
def joinElements (P : Platform ν) : List (JSON ν) → Except String String
  | [] => .ok ""
  | v :: vs =>
      match (match v with
             | .null => Except.ok ""
             | w => jsToString P w) with
      | .error m => .error m
      | .ok s =>
          match vs with
          | [] => .ok s
          | _ :: _ =>
              match joinElements P vs with
              | .error m => .error m
              | .ok r => .ok (s ++ "," ++ r)
end

/-! ## The component -/

/-- The `sender` of a transcript entry. -/
inductive Sender where
  | user : Sender
  | agent : Sender
  deriving DecidableEq

/-- The `text` of a transcript entry. -/
inductive Content (ν : Type) where
  /-- The welcome block of the initial entry (lines 9-17). -/
  | welcome : Content ν
  /-- A JavaScript value stored as it is (a string, or `data.response`). -/
  | value (v : JSON ν) : Content ν
  /-- The element `<pre>{text}</pre>` (line 71). -/
  | pre (text : String) : Content ν

/-- A transcript entry `{ sender, text }`. -/
structure Message (ν : Type) where
  sender : Sender
  text : Content ν

/-- The React state of `App` (lines 5-22). -/
structure AppState (ν : Type) where
  messages : List (Message ν)
  input : String
  loading : Bool

/-- The state of the first render. -/
def initialState : AppState ν :=
  { messages := [{ sender := .agent, text := .welcome }], input := "", loading := false }

/-- A call of `fetch` (lines 55-59). -/
structure Request where
  url : String
  method : String
  headers : List (String × String)
  body : String
  deriving DecidableEq

/-- How the backend call of one submission resolves: the promise of `fetch`
is rejected with an error of message `message`, or it is fulfilled with a
response of status `status` whose `response.json()` is fulfilled with a parsed
value (`Except.ok`) or rejected with an error of the given message
(`Except.error`). -/
inductive FetchOutcome (ν : Type) where
  | rejected (message : String) : FetchOutcome ν
  | responded (status : Nat) (body : Except String (JSON ν)) : FetchOutcome ν

/-- The property `response.ok`: the status is in the range 200-299. -/
def responseOk (status : Nat) : Bool :=
  decide (200 ≤ status) && decide (status ≤ 299)

/-- The text of `API_URL` inside the template literal of line 55. -/
def apiUrlText (P : Platform ν) : String :=
  match P.API_URL with
  | some base => base
  | none => "undefined"

/-- The fixed answer of line 75. -/
def fallbackText : String := "No valid response received from the agent."

/-- The message of line 64 when there is no usable `detail`. -/
def httpErrorText (status : Nat) : String :=
  "HTTP error! Status: " ++ toString status

/-- Lines 68-76: the content chosen for the parsed body `data`. -/
def agentResponseContent (P : Platform ν) (data : JSON ν) : Content ν :=
  let response : Option (JSON ν) := if truthy P data then getProp data "response" else none
  match response with
  | some r =>
      if typeofIsObject r then Content.pre (stringifyIndented P r 2)
      else if truthy P r then Content.value r
      else Content.value (.str fallbackText)
  | none => Content.value (.str fallbackText)

/-- Lines 62-64: the message of the error thrown for a response that is not
`ok`.  A body that does not parse is replaced by the empty object; reading
`detail` of `null` throws a `TypeError`, which the `catch` of line 81 receives
like the error of line 64. -/
def thrownMessage (P : Platform ν) (status : Nat) (body : Except String (JSON ν)) : String :=
  let errorData : JSON ν :=
    match body with
    | .ok v => v
    | .error _ => .obj []
  match errorData with
  | .null => P.nullReadMessage
  | _ =>
      match getProp errorData "detail" with
      | some d =>
          if truthy P d then
            match jsToString P d with
            | .ok m => m
            | .error m => m
          else httpErrorText status
      | none => httpErrorText status

/-- The `try` block after the request is sent (lines 55-79): `Except.error m`
is an error of message `m` reaching the `catch`, `Except.ok c` is the content
of `agentMessage`. -/
def tryBlock (P : Platform ν) : FetchOutcome ν → Except String (Content ν)
  | .rejected m => .error m
  | .responded status body =>
      if !responseOk status then .error (thrownMessage P status body)
      else
        match body with
        | .error m => .error m
        | .ok data => .ok (agentResponseContent P data)

/-- The entry appended once the call has resolved (lines 78 and 82). -/
def outcomeMessage (P : Platform ν) (o : FetchOutcome ν) : Message ν :=
  match tryBlock P o with
  | .ok c => { sender := .agent, text := c }
  | .error m => { sender := .agent, text := .value (.str ("Error: " ++ m)) }

/-- The part of `sendMessage` that runs before the `await` of line 55 (lines
46-59): the new state and the calls of `fetch` made. -/
def sendMessageSync (P : Platform ν) (s : AppState ν) : AppState ν × List Request :=
  if jsTrim s.input = "" || s.loading then (s, [])
  else
    let text := jsTrim s.input
    ({ messages := s.messages ++ [{ sender := .user, text := .value (.str text) }],
       input := "",
       loading := true },
     [{ url := apiUrlText P ++ "query",
        method := "POST",
        headers := [("Content-Type", "application/json"), ("Accept", "application/json")],
        body := stringify P (.obj [("message", .str text)]) }])

/-- The part of `sendMessage` that runs once the call has resolved (lines
61-87), on the state of that moment: the updater of `setMessages` appends to
the transcript it is given, and `finally` clears `loading`. -/
def sendMessageResume (P : Platform ν) (o : FetchOutcome ν) (s : AppState ν) : AppState ν :=
  { s with messages := s.messages ++ [outcomeMessage P o], loading := false }

/-- A whole run of `sendMessage` from state `s`, the backend call resolving as `o`. -/
def sendMessage (P : Platform ν) (s : AppState ν) (o : FetchOutcome ν) : AppState ν :=
  match sendMessageSync P s with
  | (s', []) => s'
  | (s', _ :: _) => sendMessageResume P o s'

/-- Lines 46-59 as run by the handler of any render: `input` and `loading`
are the constants that render gave the handler (lines 21-22, read on lines 46
and 48), `s` is the current state, which the updates of lines 49-51 reach
(`setMessages` through its updater, `setInput` and `setLoading` by
overwriting).  With the constants of `s` itself this is `sendMessageSync`. -/
def sendMessageFrom (P : Platform ν) (input : String) (loading : Bool) (s : AppState ν) :
    AppState ν × List Request :=
  if jsTrim input = "" || loading then (s, [])
  else
    let text := jsTrim input
    ({ messages := s.messages ++ [{ sender := .user, text := .value (.str text) }],
       input := "",
       loading := true },
     [{ url := apiUrlText P ++ "query",
        method := "POST",
        headers := [("Content-Type", "application/json"), ("Accept", "application/json")],
        body := stringify P (.obj [("message", .str text)]) }])

/-- The handler of lines 90-95, of a render with constants `input` and `loading`. -/
def handleKeyPress (P : Platform ν) (key : String) (shiftKey : Bool)
    (input : String) (loading : Bool) (s : AppState ν) : AppState ν × List Request :=
  if key = "Enter" && !shiftKey then sendMessageFrom P input loading s else (s, [])

/-! ## The component as a transition system -/

/-- The component: the current React state, the constants `input` and
`loading` of the last committed render (those its handlers read), and the
calls of `fetch` that have not resolved. -/
structure World (ν : Type) where
  app : AppState ν
  renderedInput : String
  renderedLoading : Bool
  outstanding : List Request

/-- What can happen to the component. -/
inductive Event (ν : Type) where
  /-- The `onChange` of the textarea (line 121). -/
  | change (value : String) : Event ν
  /-- The `onKeyPress` of the textarea (line 122). -/
  | keyPress (key : String) (shiftKey : Bool) : Event ν
  /-- The `onClick` of the button (line 127). -/
  | click : Event ν
  /-- The outstanding call number `i` resolves as `o` and its `sendMessage` resumes. -/
  | settle (i : Nat) (o : FetchOutcome ν) : Event ν
  /-- React commits a render of the current state: the handlers are created
  anew with the current `input` and `loading`. -/
  | render : Event ν

/-- The first render, nothing sent. -/
def initialWorld : World ν :=
  { app := initialState, renderedInput := "", renderedLoading := false, outstanding := [] }

/-- One event.  The handlers of a key press and of a click are those of the
last committed render; no event but `render` replaces them. -/
def step (P : Platform ν) (w : World ν) : Event ν → World ν
  | .change value => { w with app := { w.app with input := value } }
  | .keyPress key shiftKey =>
      { w with
        app := (handleKeyPress P key shiftKey w.renderedInput w.renderedLoading w.app).1,
        outstanding := w.outstanding ++
          (handleKeyPress P key shiftKey w.renderedInput w.renderedLoading w.app).2 }
  | .click =>
      { w with
        app := (sendMessageFrom P w.renderedInput w.renderedLoading w.app).1,
        outstanding := w.outstanding ++
          (sendMessageFrom P w.renderedInput w.renderedLoading w.app).2 }
  | .settle i o =>
      if i < w.outstanding.length then
        { w with app := sendMessageResume P o w.app, outstanding := w.outstanding.eraseIdx i }
      else w
  | .render => { w with renderedInput := w.app.input, renderedLoading := w.app.loading }

/-- A sequence of events. -/
def run (P : Platform ν) (w : World ν) (events : List (Event ν)) : World ν :=
  events.foldl (step P) w

/-- A sequence of events in which React commits a render before each event,
so that every handler is the one of the current state. -/
def runRendered (P : Platform ν) (w : World ν) (events : List (Event ν)) : World ν :=
  events.foldl (fun v e => step P (step P v .render) e) w

/-- The invariant behind the pending flag: nothing is outstanding while
`loading` is `false`, and never more than one call is. -/
def Guarded (w : World ν) : Prop :=
  (w.app.loading = false → w.outstanding = []) ∧ w.outstanding.length ≤ 1

/-! ## A concrete platform for the examples -/

/-- A platform whose numbers are the integers. -/
def intPlatform : Platform Int where
  API_URL := some "http://localhost:8000/"
  numToString := fun n => toString n
  numIsFinite := fun _ => true
  numIsFalsy := fun n => n == 0
  nullReadMessage := "errorData is null"
  toPrimitiveMessage := "can not convert object to primitive type"

/-- A state with the draft ` hi ` typed after the first render. -/
def typedState : AppState Int :=
  { messages := [{ sender := .agent, text := .welcome }], input := " hi ", loading := false }

/-- A state whose draft is blank: a space, a line feed and a tab. -/
def blankState : AppState Int :=
  { messages := [{ sender := .agent, text := .welcome }], input := " \n\t", loading := false }

/-- A state in which a call is pending and a draft is present all the same. -/
def pendingState : AppState Int :=
  { messages := [{ sender := .agent, text := .welcome },
                 { sender := .user, text := .value (.str "first") }],
    input := "second", loading := true }

/-! ## Auxiliary facts -/

theorem trimStart_of_all (l : List Char) (h : ∀ c ∈ l, isTrimChar c = true) :
    trimStart l = [] := by
  induction l with
  | nil => rfl
  | cons c cs ih =>
      have hc : isTrimChar c = true := h c (List.mem_cons_self c cs)
      have hcs : ∀ d ∈ cs, isTrimChar d = true := fun d hd => h d (List.mem_cons_of_mem c hd)
      simp [trimStart, hc, ih hcs]

theorem jsTrim_of_all (s : String) (h : ∀ c ∈ s.data, isTrimChar c = true) :
    jsTrim s = "" := by
  unfold jsTrim
  rw [trimStart_of_all s.data h]
  rfl

theorem sendMessageSync_refused (P : Platform ν) (s : AppState ν)
    (h : jsTrim s.input = "" ∨ s.loading = true) : sendMessageSync P s = (s, []) := by
  unfold sendMessageSync
  rw [if_pos]
  simpa using h

theorem sendMessageSync_accepted (P : Platform ν) (s : AppState ν)
    (ht : jsTrim s.input ≠ "") (hl : s.loading = false) :
    sendMessageSync P s =
      ({ messages := s.messages ++ [{ sender := .user, text := .value (.str (jsTrim s.input)) }],
         input := "",
         loading := true },
       [{ url := apiUrlText P ++ "query",
          method := "POST",
          headers := [("Content-Type", "application/json"), ("Accept", "application/json")],
          body := stringify P (.obj [("message", .str (jsTrim s.input))]) }]) := by
  unfold sendMessageSync
  rw [if_neg]
  simp [ht, hl]

theorem sendMessage_refused (P : Platform ν) (s : AppState ν) (o : FetchOutcome ν)
    (h : jsTrim s.input = "" ∨ s.loading = true) : sendMessage P s o = s := by
  unfold sendMessage
  rw [sendMessageSync_refused P s h]

theorem sendMessage_accepted (P : Platform ν) (s : AppState ν) (o : FetchOutcome ν)
    (ht : jsTrim s.input ≠ "") (hl : s.loading = false) :
    sendMessage P s o =
      { messages := s.messages ++
          [{ sender := .user, text := .value (.str (jsTrim s.input)) }, outcomeMessage P o],
        input := "",
        loading := false } := by
  unfold sendMessage
  rw [sendMessageSync_accepted P s ht hl]
  simp [sendMessageResume]

theorem outcomeMessage_sender (P : Platform ν) (o : FetchOutcome ν) :
    (outcomeMessage P o).sender = Sender.agent := by
  unfold outcomeMessage
  cases tryBlock P o <;> rfl

theorem sendMessageFrom_current (P : Platform ν) (s : AppState ν) :
    sendMessageFrom P s.input s.loading s = sendMessageSync P s := rfl

theorem sendMessageFrom_pending (P : Platform ν) (input : String) (s : AppState ν) :
    sendMessageFrom P input true s = (s, []) := by
  simp [sendMessageFrom]

theorem sendMessageSync_extends (P : Platform ν) (s : AppState ν) :
    s.messages <+: (sendMessageSync P s).1.messages := by
  unfold sendMessageSync
  split
  · exact List.prefix_refl _
  · exact List.prefix_append _ _

theorem sendMessageFrom_extends (P : Platform ν) (input : String) (loading : Bool)
    (s : AppState ν) : s.messages <+: (sendMessageFrom P input loading s).1.messages := by
  unfold sendMessageFrom
  split
  · exact List.prefix_refl _
  · exact List.prefix_append _ _

theorem handleKeyPress_extends (P : Platform ν) (key : String) (shiftKey : Bool)
    (input : String) (loading : Bool) (s : AppState ν) :
    s.messages <+: (handleKeyPress P key shiftKey input loading s).1.messages := by
  unfold handleKeyPress
  split
  · exact sendMessageFrom_extends P input loading s
  · exact List.prefix_refl _

theorem handleKeyPress_cases (P : Platform ν) (key : String) (shiftKey : Bool)
    (input : String) (loading : Bool) (s : AppState ν) :
    handleKeyPress P key shiftKey input loading s = sendMessageFrom P input loading s ∨
      handleKeyPress P key shiftKey input loading s = (s, []) := by
  unfold handleKeyPress
  split
  · exact Or.inl rfl
  · exact Or.inr rfl

theorem step_extends (P : Platform ν) (w : World ν) (e : Event ν) :
    w.app.messages <+: (step P w e).app.messages := by
  cases e with
  | change value => exact List.prefix_refl _
  | keyPress key shiftKey =>
      exact handleKeyPress_extends P key shiftKey w.renderedInput w.renderedLoading w.app
  | click => exact sendMessageFrom_extends P w.renderedInput w.renderedLoading w.app
  | settle i o =>
      simp only [step]
      split
      · exact List.prefix_append _ _
      · exact List.prefix_refl _
  | render => exact List.prefix_refl _

theorem run_extends (P : Platform ν) (events : List (Event ν)) :
    ∀ w : World ν, w.app.messages <+: (run P w events).app.messages := by
  induction events with
  | nil => intro w; exact List.prefix_refl _
  | cons e es ih =>
      intro w
      exact List.IsPrefix.trans (step_extends P w e) (ih (step P w e))

theorem guarded_sync (P : Platform ν) (a : AppState ν) (out : List Request)
    (ri : String) (rl : Bool) (h : (a.loading = false → out = []) ∧ out.length ≤ 1) :
    Guarded
      { app := (sendMessageSync P a).1, renderedInput := ri, renderedLoading := rl,
        outstanding := out ++ (sendMessageSync P a).2 } := by
  by_cases hg : jsTrim a.input = "" ∨ a.loading = true
  · rw [sendMessageSync_refused P a hg]
    simpa [Guarded] using h
  · have ht : jsTrim a.input ≠ "" := fun h0 => hg (Or.inl h0)
    have hl : a.loading = false := by
      cases hb : a.loading with
      | false => rfl
      | true => exact absurd (Or.inr hb) hg
    rw [sendMessageSync_accepted P a ht hl]
    simp [Guarded, h.1 hl]

theorem guarded_rendered_step (P : Platform ν) (w : World ν) (e : Event ν) (h : Guarded w) :
    Guarded (step P (step P w .render) e) := by
  cases e with
  | change value => exact h
  | keyPress key shiftKey =>
      simp only [step]
      rcases handleKeyPress_cases P key shiftKey w.app.input w.app.loading w.app with hk | hk
      · rw [hk, sendMessageFrom_current]
        exact guarded_sync P w.app w.outstanding _ _ h
      · rw [hk]
        simpa [Guarded] using h
  | click =>
      simp only [step]
      rw [sendMessageFrom_current]
      exact guarded_sync P w.app w.outstanding _ _ h
  | settle i o =>
      simp only [step]
      split
      · rename_i hi
        have hlen : (w.outstanding.eraseIdx i).length = 0 := by
          rw [List.length_eraseIdx, if_pos hi]
          have := h.2
          omega
        have hnil : w.outstanding.eraseIdx i = [] := List.length_eq_zero.mp hlen
        simp [Guarded, hnil]
      · exact h
  | render => exact h

theorem guarded_runRendered (P : Platform ν) (events : List (Event ν)) :
    ∀ w : World ν, Guarded w → Guarded (runRendered P w events) := by
  induction events with
  | nil => intro w h; exact h
  | cons e es ih =>
      intro w h
      exact ih (step P (step P w .render) e) (guarded_rendered_step P w e h)

theorem step_click_pending (P : Platform ν) (w : World ν) (hw : w.renderedLoading = true) :
    step P w .click = w := by
  cases w with
  | mk app ri rl out =>
      simp only at hw
      subst hw
      simp [step, sendMessageFrom_pending]

theorem step_keyPress_pending (P : Platform ν) (w : World ν) (key : String)
    (shiftKey : Bool) (hw : w.renderedLoading = true) :
    step P w (.keyPress key shiftKey) = w := by
  cases w with
  | mk app ri rl out =>
      simp only at hw
      subst hw
      simp [step, handleKeyPress, sendMessageFrom_pending]

theorem guarded_initial : Guarded (initialWorld : World ν) := by
  simp [Guarded, initialWorld]

theorem run_click_settle (P : Platform ν) (s : AppState ν) (o : FetchOutcome ν)
    (ht : jsTrim s.input ≠ "") (hl : s.loading = false) :
    (run P { app := s, renderedInput := s.input, renderedLoading := s.loading,
             outstanding := [] } [.click, .settle 0 o]).app = sendMessage P s o := by
  simp [run, step, sendMessage, sendMessageFrom_current, sendMessageSync_accepted P s ht hl]

theorem stringify_message (P : Platform ν) (t : String) :
    stringify P (.obj [("message", .str t)]) =
      "\x7b\"message\":" ++ QuoteJSONString t ++ "\x7d" := by
  have hq : QuoteJSONString "message" = "\"message\"" := by decide
  simp [stringify, serializeJSONProperty, serializeMembers, bracketed, joinWith, hq,
    String.append_assoc]
  have hb : ("\x7b" : String) ++ "\"message\":" = "\x7b\"message\":" := by decide
  rw [← String.append_assoc, hb]

theorem truthy_of_getProp (P : Platform ν) (data r : JSON ν) (key : String)
    (h : getProp data key = some r) : truthy P data = true := by
  cases data <;> simp [getProp] at h
  rfl

theorem outcomeMessage_ok_body (P : Platform ν) (status : Nat) (data : JSON ν)
    (hs : responseOk status = true) :
    outcomeMessage P (.responded status (.ok data)) =
      { sender := .agent, text := agentResponseContent P data } := by
  simp [outcomeMessage, tryBlock, hs]

theorem outcomeMessage_error_status (P : Platform ν) (status : Nat)
    (body : Except String (JSON ν)) (hs : responseOk status = false) :
    outcomeMessage P (.responded status body) =
      { sender := .agent, text := .value (.str ("Error: " ++ thrownMessage P status body)) } := by
  simp [outcomeMessage, tryBlock, hs]

theorem agentResponseContent_of_response (P : Platform ν) (data r : JSON ν)
    (h : getProp data "response" = some r) :
    agentResponseContent P data =
      if typeofIsObject r then Content.pre (stringifyIndented P r 2)
      else if truthy P r then Content.value r
      else Content.value (.str fallbackText) := by
  simp [agentResponseContent, truthy_of_getProp P data r "response" h, h]

theorem agentResponseContent_of_absent (P : Platform ν) (data : JSON ν)
    (h : getProp data "response" = none) :
    agentResponseContent P data = Content.value (.str fallbackText) := by
  unfold agentResponseContent
  cases truthy P data <;> simp [h]

theorem thrownMessage_of_detail (P : Platform ν) (status : Nat) (data d : JSON ν)
    (h : getProp data "detail" = some d) :
    thrownMessage P status (.ok data) =
      if truthy P d then
        match jsToString P d with
        | .ok m => m
        | .error m => m
      else httpErrorText status := by
  cases data <;> simp [getProp] at h
  simp [thrownMessage, getProp, h]

theorem thrownMessage_of_absent (P : Platform ν) (status : Nat) (data : JSON ν)
    (hn : data ≠ .null) (h : getProp data "detail" = none) :
    thrownMessage P status (.ok data) = httpErrorText status := by
  cases data <;> simp_all [thrownMessage, getProp]

theorem thrownMessage_of_unparseable (P : Platform ν) (status : Nat) (e : String) :
    thrownMessage P status (.error e) = httpErrorText status := by
  simp [thrownMessage, getProp, lookupProp]

/-! ## The claims -/

/-- C1: for a draft whose trimmed text is not empty, submitted while `loading`
is `false`, the user entry is appended before the request resolves, and
however the backend call resolves the transcript after `sendMessage` is the
prior transcript, the user entry with the trimmed text, and one entry whose
sender is the agent. -/
theorem sendMessage_appends_user_then_one_agent (P : Platform ν) (s : AppState ν)
    (o : FetchOutcome ν) (ht : jsTrim s.input ≠ "") (hl : s.loading = false) :
    (sendMessageSync P s).1.messages =
        s.messages ++ [{ sender := .user, text := .value (.str (jsTrim s.input)) }] ∧
      ∃ c : Content ν,
        (sendMessage P s o).messages =
          s.messages ++
            [{ sender := .user, text := .value (.str (jsTrim s.input)) },
             { sender := .agent, text := c }] := by
  refine ⟨by rw [sendMessageSync_accepted P s ht hl], (outcomeMessage P o).text, ?_⟩
  rw [sendMessage_accepted P s o ht hl]
  have hs := outcomeMessage_sender P o
  cases hm : outcomeMessage P o with
  | mk sender text =>
      rw [hm] at hs
      simp only at hs
      simp [hs]

theorem sendMessage_appends_user_then_one_agent_witness :
    jsTrim typedState.input ≠ "" ∧ typedState.loading = false ∧
      ((sendMessageSync intPlatform typedState).1.messages =
          typedState.messages ++
            [{ sender := .user, text := .value (.str (jsTrim typedState.input)) }] ∧
        ∃ c : Content Int,
          (sendMessage intPlatform typedState (.rejected "Failed to fetch")).messages =
            typedState.messages ++
              [{ sender := .user, text := .value (.str (jsTrim typedState.input)) },
               { sender := .agent, text := c }]) :=
  ⟨by decide, rfl,
    sendMessage_appends_user_then_one_agent intPlatform typedState (.rejected "Failed to fetch")
      (by decide) rfl⟩

/-- C2: for a draft that is empty or made of white space only, `sendMessage`
does nothing: no call of `fetch` is made, and the transcript, the draft and
the pending flag are as before, whatever the backend would have answered. -/
theorem sendMessage_blank_draft_noop (P : Platform ν) (s : AppState ν)
    (h : ∀ c ∈ s.input.data, isTrimChar c = true) :
    sendMessageSync P s = (s, []) ∧ ∀ o : FetchOutcome ν, sendMessage P s o = s :=
  ⟨sendMessageSync_refused P s (Or.inl (jsTrim_of_all s.input h)),
    fun o => sendMessage_refused P s o (Or.inl (jsTrim_of_all s.input h))⟩

theorem sendMessage_blank_draft_noop_witness :
    (∀ c ∈ blankState.input.data, isTrimChar c = true) ∧
      sendMessageSync intPlatform blankState = (blankState, []) ∧
      ∀ o : FetchOutcome Int, sendMessage intPlatform blankState o = blankState :=
  ⟨by decide, sendMessage_blank_draft_noop intPlatform blankState (by decide)⟩

/-- C3, as stated, fails: after the draft `hi` is typed and rendered, a click
sets the pending flag and leaves one call outstanding; a second click handled
by the same render, whose `loading` is still `false`, is made while the
pending flag is `true`, yet it appends a second user entry and makes a second
call, so two calls are outstanding. -/
theorem pending_guard_same_render_counterexample :
    (run intPlatform initialWorld [.change "hi", .render, .click]).app.loading = true ∧
      (run intPlatform initialWorld [.change "hi", .render, .click]).outstanding.length = 1 ∧
      (run intPlatform initialWorld
          [.change "hi", .render, .click, .click]).outstanding.length = 2 ∧
      (run intPlatform initialWorld [.change "hi", .render, .click, .click]).app.messages =
        [{ sender := .agent, text := .welcome },
         { sender := .user, text := .value (.str "hi") },
         { sender := .user, text := .value (.str "hi") }] :=
  ⟨rfl, rfl, rfl, rfl⟩

/-- C3, amended: a call of `sendMessage` by the handler of a render whose
`loading` is `true` does nothing, whatever the draft and the current state: no
call of `fetch` is made and the state is as before, and a click or a key press
handled by such a render leaves the whole component as it was; and when React
commits a render before each event, at most one call is outstanding in every
state reached from the first render. -/
theorem sendMessage_pending_render_noop (P : Platform ν) (s : AppState ν)
    (h : s.loading = true) :
    sendMessageSync P s = (s, []) ∧
      (∀ o : FetchOutcome ν, sendMessage P s o = s) ∧
      (∀ (input : String) (cur : AppState ν), sendMessageFrom P input true cur = (cur, [])) ∧
      (∀ w : World ν, w.renderedLoading = true →
        step P w .click = w ∧ ∀ (key : String) (shiftKey : Bool),
          step P w (.keyPress key shiftKey) = w) ∧
      ∀ events : List (Event ν), (runRendered P initialWorld events).outstanding.length ≤ 1 := by
  exact ⟨sendMessageSync_refused P s (Or.inr h),
    fun o => sendMessage_refused P s o (Or.inr h),
    fun input cur => sendMessageFrom_pending P input cur,
    fun w hw =>
      ⟨step_click_pending P w hw, fun key shiftKey => step_keyPress_pending P w key shiftKey hw⟩,
    fun events => (guarded_runRendered P events initialWorld guarded_initial).2⟩

theorem sendMessage_pending_render_noop_witness :
    pendingState.loading = true ∧
      sendMessageSync intPlatform pendingState = (pendingState, []) ∧
      (∀ o : FetchOutcome Int, sendMessage intPlatform pendingState o = pendingState) ∧
      (∀ (input : String) (cur : AppState Int),
        sendMessageFrom intPlatform input true cur = (cur, [])) ∧
      (∀ w : World Int, w.renderedLoading = true →
        step intPlatform w .click = w ∧ ∀ (key : String) (shiftKey : Bool),
          step intPlatform w (.keyPress key shiftKey) = w) ∧
      ∀ events : List (Event Int),
        (runRendered intPlatform initialWorld events).outstanding.length ≤ 1 :=
  ⟨rfl, sendMessage_pending_render_noop intPlatform pendingState rfl⟩

/-- C4: for an accepted submission (trimmed draft not empty, `loading`
`false`) the state in which the one call of `fetch` is made has `loading`
`true` and an empty draft, and once `sendMessage` has resolved `loading` is
`false` and the draft is still empty, however the backend call resolved. -/
theorem sendMessage_pending_flag (P : Platform ν) (s : AppState ν)
    (ht : jsTrim s.input ≠ "") (hl : s.loading = false) :
    (sendMessageSync P s).1.loading = true ∧
      (sendMessageSync P s).1.input = "" ∧
      (sendMessageSync P s).2.length = 1 ∧
      ∀ o : FetchOutcome ν,
        (sendMessage P s o).loading = false ∧ (sendMessage P s o).input = "" := by
  refine ⟨?_, ?_, ?_, fun o => ?_⟩
  · rw [sendMessageSync_accepted P s ht hl]
  · rw [sendMessageSync_accepted P s ht hl]
  · rw [sendMessageSync_accepted P s ht hl]
    rfl
  · rw [sendMessage_accepted P s o ht hl]
    exact ⟨rfl, rfl⟩

theorem sendMessage_pending_flag_witness :
    jsTrim typedState.input ≠ "" ∧ typedState.loading = false ∧
      (sendMessageSync intPlatform typedState).1.loading = true ∧
      (sendMessageSync intPlatform typedState).1.input = "" ∧
      (sendMessageSync intPlatform typedState).2.length = 1 ∧
      ∀ o : FetchOutcome Int,
        (sendMessage intPlatform typedState o).loading = false ∧
          (sendMessage intPlatform typedState o).input = "" :=
  ⟨by decide, rfl, sendMessage_pending_flag intPlatform typedState (by decide) rfl⟩

/-- C9: the transcript is append-only.  From every state, the transcript
before an event (a draft edit, a key press, a click, a call resolving, a
render) is a prefix of the transcript after it, whichever render the handler
belongs to; the same holds over every sequence of
events and over a whole run of `sendMessage`. -/
theorem transcript_append_only (P : Platform ν) (w : World ν) :
    (∀ e : Event ν, w.app.messages <+: (step P w e).app.messages) ∧
      (∀ events : List (Event ν), w.app.messages <+: (run P w events).app.messages) ∧
      ∀ o : FetchOutcome ν, w.app.messages <+: (sendMessage P w.app o).messages := by
  refine ⟨step_extends P w, fun events => run_extends P events w, fun o => ?_⟩
  unfold sendMessage
  have hp := sendMessageSync_extends P w.app
  split
  · rename_i s' heq
    rw [heq] at hp
    exact hp
  · rename_i s' r rs heq
    rw [heq] at hp
    exact List.IsPrefix.trans hp (List.prefix_append _ _)

/-- C10: an accepted submission with trimmed draft `t` makes one call of
`fetch`: method `POST`, the configured base URL followed by `query`, the two
JSON headers, and as body the JSON text of the object whose one field
`message` is `t`, the text of the user entry appended with it. -/
theorem sendMessage_request (P : Platform ν) (s : AppState ν) (base : String)
    (hb : P.API_URL = some base) (ht : jsTrim s.input ≠ "") (hl : s.loading = false) :
    sendMessageSync P s =
      ({ messages := s.messages ++ [{ sender := .user, text := .value (.str (jsTrim s.input)) }],
         input := "",
         loading := true },
       [{ url := base ++ "query",
          method := "POST",
          headers := [("Content-Type", "application/json"), ("Accept", "application/json")],
          body := "\x7b\"message\":" ++ QuoteJSONString (jsTrim s.input) ++ "\x7d" }]) := by
  rw [sendMessageSync_accepted P s ht hl, stringify_message]
  simp [apiUrlText, hb]

theorem sendMessage_request_witness :
    intPlatform.API_URL = some "http://localhost:8000/" ∧
      jsTrim typedState.input ≠ "" ∧ typedState.loading = false ∧
      sendMessageSync intPlatform typedState =
        ({ messages := typedState.messages ++
             [{ sender := .user, text := .value (.str (jsTrim typedState.input)) }],
           input := "",
           loading := true },
         [{ url := "http://localhost:8000/" ++ "query",
            method := "POST",
            headers := [("Content-Type", "application/json"), ("Accept", "application/json")],
            body := "\x7b\"message\":" ++ QuoteJSONString (jsTrim typedState.input) ++ "\x7d" }]) ∧
      "\x7b\"message\":" ++ QuoteJSONString (jsTrim typedState.input) ++ "\x7d" =
        "\x7b\"message\":\"hi\"\x7d" :=
  ⟨rfl, by decide, rfl,
    sendMessage_request intPlatform typedState "http://localhost:8000/" rfl (by decide) rfl,
    by decide⟩

/-- C5, as stated, fails: with status 200 and body `{"response": ""}` the
field is present and is not an object, yet the agent entry holds the fixed
fallback text, not the empty string; and with body `{"response": null}`,
whose field is the JSON `null` and for which `typeof` answers `object`, the
agent entry holds the element `<pre>null</pre>`, not a plain text. -/
theorem plain_response_falsy_counterexample :
    getProp (JSON.obj [("response", .str "")] : JSON Int) "response" = some (.str "") ∧
      (sendMessage intPlatform typedState
          (.responded 200 (.ok (.obj [("response", .str "")])))).messages =
        [{ sender := .agent, text := .welcome },
         { sender := .user, text := .value (.str "hi") },
         { sender := .agent, text := .value (.str "No valid response received from the agent.") }] ∧
      (Content.value (.str "No valid response received from the agent.") : Content Int) ≠
        Content.value (.str "") ∧
      (sendMessage intPlatform typedState
          (.responded 200 (.ok (.obj [("response", .null)])))).messages =
        [{ sender := .agent, text := .welcome },
         { sender := .user, text := .value (.str "hi") },
         { sender := .agent, text := .pre "null" }] := by
  refine ⟨rfl, rfl, ?_, rfl⟩
  intro h
  injection h with h
  injection h with h
  exact absurd h (by decide)

/-- C5, amended: for a response of status 200-299 whose parsed body has a
`response` field for which `typeof` is not `object`, the agent entry holds
that value as it is when the value is truthy (a string that is not empty, a
number that is neither zero nor `NaN`, `true`), and the fixed text
`No valid response received from the agent.` when it is falsy (the empty
string, zero, `NaN`, `false`). -/
theorem plain_response_content (P : Platform ν) (s : AppState ν) (status : Nat)
    (data r : JSON ν) (ht : jsTrim s.input ≠ "") (hl : s.loading = false)
    (hs : responseOk status = true) (hr : getProp data "response" = some r)
    (hobj : typeofIsObject r = false) :
    (truthy P r = true →
        (sendMessage P s (.responded status (.ok data))).messages =
          s.messages ++
            [{ sender := .user, text := .value (.str (jsTrim s.input)) },
             { sender := .agent, text := .value r }]) ∧
      (truthy P r = false →
        (sendMessage P s (.responded status (.ok data))).messages =
          s.messages ++
            [{ sender := .user, text := .value (.str (jsTrim s.input)) },
             { sender := .agent,
               text := .value (.str "No valid response received from the agent.") }]) := by
  rw [sendMessage_accepted P s _ ht hl, outcomeMessage_ok_body P status data hs,
    agentResponseContent_of_response P data r hr]
  constructor
  · intro htr
    simp [hobj, htr]
  · intro htr
    simp [hobj, htr, fallbackText]

theorem plain_response_content_witness :
    jsTrim typedState.input ≠ "" ∧ typedState.loading = false ∧ responseOk 200 = true ∧
      getProp (JSON.obj [("response", .str "Hello")] : JSON Int) "response" =
        some (.str "Hello") ∧
      typeofIsObject (JSON.str "Hello" : JSON Int) = false ∧
      truthy intPlatform (.str "Hello") = true ∧
      (sendMessage intPlatform typedState
          (.responded 200 (.ok (.obj [("response", .str "Hello")])))).messages =
        typedState.messages ++
          [{ sender := .user, text := .value (.str (jsTrim typedState.input)) },
           { sender := .agent, text := .value (.str "Hello") }] ∧
      getProp (JSON.obj [("response", .num 0)] : JSON Int) "response" = some (.num 0) ∧
      typeofIsObject (JSON.num 0 : JSON Int) = false ∧
      truthy intPlatform (.num 0) = false ∧
      (sendMessage intPlatform typedState
          (.responded 200 (.ok (.obj [("response", .num 0)])))).messages =
        typedState.messages ++
          [{ sender := .user, text := .value (.str (jsTrim typedState.input)) },
           { sender := .agent,
             text := .value (.str "No valid response received from the agent.") }] ∧
      getProp (JSON.obj [("response", .bool false)] : JSON Int) "response" =
        some (.bool false) ∧
      typeofIsObject (JSON.bool false : JSON Int) = false ∧
      truthy intPlatform (.bool false) = false ∧
      (sendMessage intPlatform typedState
          (.responded 200 (.ok (.obj [("response", .bool false)])))).messages =
        typedState.messages ++
          [{ sender := .user, text := .value (.str (jsTrim typedState.input)) },
           { sender := .agent,
             text := .value (.str "No valid response received from the agent.") }] :=
  ⟨by decide, rfl, rfl, rfl, rfl, rfl,
    (plain_response_content intPlatform typedState 200 (.obj [("response", .str "Hello")])
      (.str "Hello") (by decide) rfl rfl rfl rfl).1 rfl,
    rfl, rfl, rfl,
    (plain_response_content intPlatform typedState 200 (.obj [("response", .num 0)])
      (.num 0) (by decide) rfl rfl rfl rfl).2 rfl,
    rfl, rfl, rfl,
    (plain_response_content intPlatform typedState 200 (.obj [("response", .bool false)])
      (.bool false) (by decide) rfl rfl rfl rfl).2 rfl⟩

/-- C6: for a response of status 200-299 whose parsed body has a `response`
field that is an object, the agent entry holds a `<pre>` element whose text is
`JSON.stringify(response, null, 2)`, the object printed with an indentation of
two spaces. -/
theorem structured_response_content (P : Platform ν) (s : AppState ν) (status : Nat)
    (data : JSON ν) (props : List (String × JSON ν))
    (ht : jsTrim s.input ≠ "") (hl : s.loading = false)
    (hs : responseOk status = true) (hr : getProp data "response" = some (.obj props)) :
    (sendMessage P s (.responded status (.ok data))).messages =
      s.messages ++
        [{ sender := .user, text := .value (.str (jsTrim s.input)) },
         { sender := .agent, text := .pre (stringifyIndented P (.obj props) 2) }] := by
  rw [sendMessage_accepted P s _ ht hl, outcomeMessage_ok_body P status data hs,
    agentResponseContent_of_response P data (.obj props) hr]
  simp [typeofIsObject]

theorem structured_response_content_witness :
    jsTrim typedState.input ≠ "" ∧ typedState.loading = false ∧ responseOk 200 = true ∧
      getProp (JSON.obj [("response", .obj [("a", .num 1)])] : JSON Int) "response" =
        some (.obj [("a", .num 1)]) ∧
      stringifyIndented intPlatform (.obj [("a", .num 1)]) 2 = "\x7b\n  \"a\": 1\n\x7d" ∧
      (sendMessage intPlatform typedState
          (.responded 200 (.ok (.obj [("response", .obj [("a", .num 1)])])))).messages =
        typedState.messages ++
          [{ sender := .user, text := .value (.str (jsTrim typedState.input)) },
           { sender := .agent,
             text := .pre (stringifyIndented intPlatform (.obj [("a", .num 1)]) 2) }] :=
  ⟨by decide, rfl, rfl, rfl, by decide,
    structured_response_content intPlatform typedState 200
      (.obj [("response", .obj [("a", .num 1)])]) [("a", .num 1)] (by decide) rfl rfl rfl⟩

/-- C7: for a response of status 200-299 whose parsed body has no `response`
field (an object without it, or `null`, a boolean, a number, a string, an
array), the agent entry holds exactly the text
`No valid response received from the agent.`, which is not an error text: it
does not start with `Error: `. -/
theorem absent_response_content (P : Platform ν) (s : AppState ν) (status : Nat)
    (data : JSON ν) (ht : jsTrim s.input ≠ "") (hl : s.loading = false)
    (hs : responseOk status = true) (hr : getProp data "response" = none) :
    (sendMessage P s (.responded status (.ok data))).messages =
        s.messages ++
          [{ sender := .user, text := .value (.str (jsTrim s.input)) },
           { sender := .agent,
             text := .value (.str "No valid response received from the agent.") }] ∧
      ¬ ("Error: ".data <+: "No valid response received from the agent.".data) := by
  refine ⟨?_, by decide⟩
  rw [sendMessage_accepted P s _ ht hl, outcomeMessage_ok_body P status data hs,
    agentResponseContent_of_absent P data hr]
  rfl

theorem absent_response_content_witness :
    jsTrim typedState.input ≠ "" ∧ typedState.loading = false ∧ responseOk 200 = true ∧
      getProp (JSON.arr [.num 1, .null] : JSON Int) "response" = none ∧
      getProp (JSON.null : JSON Int) "response" = none ∧
      getProp (JSON.num 5 : JSON Int) "response" = none ∧
      getProp (JSON.str "response" : JSON Int) "response" = none ∧
      getProp (JSON.obj [("answer", .str "x")] : JSON Int) "response" = none ∧
      ((sendMessage intPlatform typedState
            (.responded 200 (.ok (.arr [.num 1, .null])))).messages =
          typedState.messages ++
            [{ sender := .user, text := .value (.str (jsTrim typedState.input)) },
             { sender := .agent,
               text := .value (.str "No valid response received from the agent.") }] ∧
        ¬ ("Error: ".data <+: "No valid response received from the agent.".data)) :=
  ⟨by decide, rfl, rfl, rfl, rfl, rfl, rfl, rfl,
    absent_response_content intPlatform typedState 200 (.arr [.num 1, .null])
      (by decide) rfl rfl rfl⟩

/-- C8, as stated, fails: with status 500 and body `{"detail": ""}` the body
parses and has a `detail` field, yet the agent entry holds the generic text
with the status code, not `Error: ` followed by the detail; the same happens
with `{"detail": false}`, whose generic text does not contain `false`; and
with body `null`, which parses and lacks `detail`, the entry holds the message
of the engine's `TypeError`, not the generic text. -/
theorem error_detail_counterexample :
    getProp (JSON.obj [("detail", .str "")] : JSON Int) "detail" = some (.str "") ∧
      (sendMessage intPlatform typedState
          (.responded 500 (.ok (.obj [("detail", .str "")])))).messages =
        [{ sender := .agent, text := .welcome },
         { sender := .user, text := .value (.str "hi") },
         { sender := .agent, text := .value (.str "Error: HTTP error! Status: 500") }] ∧
      ("Error: HTTP error! Status: 500" : String) ≠ "Error: " ++ "" ∧
      (sendMessage intPlatform typedState
          (.responded 500 (.ok (.obj [("detail", .bool false)])))).messages =
        [{ sender := .agent, text := .welcome },
         { sender := .user, text := .value (.str "hi") },
         { sender := .agent, text := .value (.str "Error: HTTP error! Status: 500") }] ∧
      ¬ ("false".data <:+: "Error: HTTP error! Status: 500".data) ∧
      getProp (JSON.null : JSON Int) "detail" = none ∧
      (sendMessage intPlatform typedState (.responded 500 (.ok .null))).messages =
        [{ sender := .agent, text := .welcome },
         { sender := .user, text := .value (.str "hi") },
         { sender := .agent, text := .value (.str "Error: errorData is null") }] :=
  ⟨rfl, rfl, by decide, rfl, by decide, rfl, rfl⟩

/-- C8, amended: for a response whose status `n` is outside 200-299, if the
body parses and has a `detail` field that is a string and not empty, the agent
entry holds `Error: ` followed by that string (more generally, followed by the
string conversion of any truthy `detail`); if the body does not parse, or
parses to a value other than `null` without a `detail` field, or has a falsy
`detail` (empty string, zero, `false`, `null`), the agent entry holds
`Error: HTTP error! Status: n`. -/
theorem error_status_content (P : Platform ν) (s : AppState ν) (status : Nat)
    (ht : jsTrim s.input ≠ "") (hl : s.loading = false) (hs : responseOk status = false) :
    (∀ (data : JSON ν) (d : String), getProp data "detail" = some (.str d) → d ≠ "" →
        (sendMessage P s (.responded status (.ok data))).messages =
          s.messages ++
            [{ sender := .user, text := .value (.str (jsTrim s.input)) },
             { sender := .agent, text := .value (.str ("Error: " ++ d)) }]) ∧
      (∀ (data d : JSON ν) (m : String), getProp data "detail" = some d →
        truthy P d = true → jsToString P d = .ok m →
        (sendMessage P s (.responded status (.ok data))).messages =
          s.messages ++
            [{ sender := .user, text := .value (.str (jsTrim s.input)) },
             { sender := .agent, text := .value (.str ("Error: " ++ m)) }]) ∧
      (∀ e : String,
        (sendMessage P s (.responded status (.error e))).messages =
          s.messages ++
            [{ sender := .user, text := .value (.str (jsTrim s.input)) },
             { sender := .agent,
               text := .value (.str ("Error: HTTP error! Status: " ++ toString status)) }]) ∧
      (∀ data : JSON ν, data ≠ .null → getProp data "detail" = none →
        (sendMessage P s (.responded status (.ok data))).messages =
          s.messages ++
            [{ sender := .user, text := .value (.str (jsTrim s.input)) },
             { sender := .agent,
               text := .value (.str ("Error: HTTP error! Status: " ++ toString status)) }]) ∧
      (∀ data d : JSON ν, getProp data "detail" = some d → truthy P d = false →
        (sendMessage P s (.responded status (.ok data))).messages =
          s.messages ++
            [{ sender := .user, text := .value (.str (jsTrim s.input)) },
             { sender := .agent,
               text := .value (.str ("Error: HTTP error! Status: " ++ toString status)) }]) := by
  refine ⟨?_, ?_, ?_, ?_, ?_⟩
  · intro data d hd hne
    rw [sendMessage_accepted P s _ ht hl, outcomeMessage_error_status P status _ hs,
      thrownMessage_of_detail P status data (.str d) hd]
    simp [truthy, jsToString, hne]
  · intro data d m hd htr hm
    rw [sendMessage_accepted P s _ ht hl, outcomeMessage_error_status P status _ hs,
      thrownMessage_of_detail P status data d hd]
    simp [htr, hm]
  · intro e
    rw [sendMessage_accepted P s _ ht hl, outcomeMessage_error_status P status _ hs,
      thrownMessage_of_unparseable]
    rfl
  · intro data hn hd
    rw [sendMessage_accepted P s _ ht hl, outcomeMessage_error_status P status _ hs,
      thrownMessage_of_absent P status data hn hd]
    rfl
  · intro data d hd htr
    rw [sendMessage_accepted P s _ ht hl, outcomeMessage_error_status P status _ hs,
      thrownMessage_of_detail P status data d hd]
    simp only [htr, Bool.false_eq_true, if_false]
    rfl

theorem error_status_content_witness :
    jsTrim typedState.input ≠ "" ∧ typedState.loading = false ∧ responseOk 500 = false ∧
      getProp (JSON.obj [("detail", .str "boom")] : JSON Int) "detail" = some (.str "boom") ∧
      (sendMessage intPlatform typedState
          (.responded 500 (.ok (.obj [("detail", .str "boom")])))).messages =
        typedState.messages ++
          [{ sender := .user, text := .value (.str (jsTrim typedState.input)) },
           { sender := .agent, text := .value (.str ("Error: " ++ "boom")) }] ∧
      (sendMessage intPlatform typedState
          (.responded 500 (.error "Unexpected token"))).messages =
        typedState.messages ++
          [{ sender := .user, text := .value (.str (jsTrim typedState.input)) },
           { sender := .agent,
             text := .value (.str ("Error: HTTP error! Status: " ++ toString 500)) }] :=
  ⟨by decide, rfl, rfl, rfl,
    (error_status_content intPlatform typedState 500 (by decide) rfl rfl).1
      (.obj [("detail", .str "boom")]) "boom" rfl (by decide),
    (error_status_content intPlatform typedState 500 (by decide) rfl rfl).2.2.1
      "Unexpected token"⟩

end ChatApp
